import Mathlib

/-!
Shallow embedding of the transaction-proving pipeline of `miden-base`
(`src/miden-tx/src/prover/mod.rs`) and of the proving-service worker layer
(`src/bin/proving-service/src/proxy/worker.rs`).

The entry point `LocalTransactionProver.prove` is translated directly from the
source.  Its collaborators — the transaction kernel, the execution host, the
external proving engine, the output reconstructor, delta application and the
proven-transaction builder — live outside the embedded source files and are
therefore taken as explicit parameters (the `ProverEnv` record), so that every
theorem about `prove` holds for every instantiation of those collaborators.
Components of this repository that the claims themselves are about but that are
not part of the embedded source (`OutputNote::shrink`, `TransactionMastStore`,
`ProvenTransactionBuilder`) are modelled from the specification, each marked by
a doc comment.
-/

set_option autoImplicit false

namespace MidenBase

/-- Content digests (hashes) are modelled as natural numbers. -/
abbrev Digest := Nat

abbrev StackInputs := Nat
abbrev StackOutputs := Nat
abbrev Program := Nat
abbrev ProvingOptions := Nat
abbrev TxArgs := Nat
abbrev AdviceWitness := Nat

/-- Proof bytes produced by the opaque proving engine. -/
abbrev Proof := List Nat

-- OUTPUT NOTES AND PRIVACY REDACTION
-- ================================================================================================

/-- The public header of an output note: its commitment and metadata. -/
structure NoteHeader where
  noteId : Digest
  noteMetadata : Nat
  deriving DecidableEq, Repr

/-- The private payload of a full output note: assets, script, recipient data. -/
structure FullNotePayload where
  assets : List Nat
  script : Nat
  recipientData : Nat
  deriving DecidableEq, Repr

/-- An output note in one of its two forms: full (header plus private payload)
or header-only. -/
inductive OutputNote where
  | full (header : NoteHeader) (payload : FullNotePayload)
  | header (header : NoteHeader)
  deriving DecidableEq, Repr

/-- Modelled from the spec: `OutputNote::shrink` (miden-objects, not under
src/) "converts each full output note into a header-only form, stripping
private payload"; "maps each full output note to its header form, a pure,
order-preserving, count-preserving, idempotent-on-headers transform". -/
def OutputNote.shrink : OutputNote → OutputNote
  | .full h _ => .header h
  | .header h => .header h

-- ACCOUNTS AND DELTAS
-- ================================================================================================

/-- Modelled from the spec: the account snapshot (miden-objects, not under
src/): "read-mostly entity with identity, initial state hash, code, a
visibility flag (public/private), and a novelty flag (new-in-this-
transaction)".  State content is represented by storage pairs and a nonce. -/
structure Account where
  accountId : Nat
  isPublic : Bool
  isNew : Bool
  initHash : Digest
  storage : List (Nat × Nat)
  nonce : Nat
  deriving DecidableEq, Repr

/-- Modelled from the spec: the account delta (miden-objects, not under src/):
"the set of changes to an account's storage/vault/nonce produced by one
transaction's execution". -/
structure AccountDelta where
  storageUpdates : List (Nat × Nat)
  nonceDelta : Nat
  deriving DecidableEq, Repr

/-- The tagged account-update metadata attached to a proven transaction.
The record stores it as an `Option`: `none` is the absent form chosen for
private accounts, mirroring `AccountUpdateDetails::Private`. -/
inductive AccountUpdateDetails where
  | New (account : Account)
  | Delta (delta : AccountDelta)
  deriving DecidableEq, Repr

-- MAST STORE (CODE CACHE)
-- ================================================================================================

/-- A tree of code fragments, content-addressed by its root digest. -/
structure MastForest where
  root : Digest
  nodes : List Nat
  deriving DecidableEq, Repr

/-- The commitment of a code tree is its root digest. -/
def MastForest.commitment (f : MastForest) : Digest := f.root

/-- Modelled from the spec: `TransactionMastStore` (miden-tx executor, not
under src/): a "content-addressed registry mapping a code commitment (hash) to
its executable representation", append-only, "deduplicated by commitment
equality". -/
structure MastStore where
  entries : List (Digest × MastForest)
  deriving DecidableEq, Repr

/-- Lookup of a code tree by commitment. -/
def MastStore.get (s : MastStore) (c : Digest) : Option MastForest :=
  (s.entries.find? (fun e => e.fst == c)).map Prod.snd

/-- Modelled from the spec: `insert(code_tree)` "adds code reachable from a
library, idempotent under repeated insertion of identical content",
deduplicated by commitment equality. -/
def MastStore.insert (s : MastStore) (f : MastForest) : MastStore :=
  if s.entries.any (fun e => e.fst == f.commitment) then s
  else { entries := (f.commitment, f) :: s.entries }

/-- Account code referenced by a witness: a commitment plus its code tree. -/
structure AccountCode where
  commitment : Digest
  forest : MastForest
  deriving DecidableEq, Repr

/-- Modelled from the spec: `load(account_code)` registers the code referenced
by an account's code module in the code cache. -/
def MastStore.load_account_code (s : MastStore) (c : AccountCode) : MastStore :=
  s.insert c.forest

/-- A library whose code tree can be loaded into a prover's code cache. -/
structure Library where
  mastForest : MastForest
  deriving DecidableEq, Repr

-- TRANSACTION WITNESS
-- ================================================================================================

/-- The block header of the reference block; its hash is stored directly. -/
structure BlockHeader where
  blockHash : Digest
  deriving DecidableEq, Repr

/-- Transaction inputs: account snapshot, input notes, reference block. -/
structure TxInputs where
  account : Account
  inputNotes : List Nat
  blockHeader : BlockHeader
  deriving DecidableEq, Repr

/-- The transaction witness consumed by a proving call. -/
structure TransactionWitness where
  txInputs : TxInputs
  txArgs : TxArgs
  adviceWitness : AdviceWitness
  accountCodes : List AccountCode
  deriving DecidableEq, Repr

-- LOCAL TRANSACTION PROVER (STATE) AND LIBRARY LOADING
-- ================================================================================================

/-- `LocalTransactionProver`: a MAST store and proving options. -/
structure LocalTransactionProver where
  mastStore : MastStore
  proofOptions : ProvingOptions
  deriving DecidableEq, Repr

/-- `LocalTransactionProver::load_library`: inserts the library's code tree
into the internal MAST forest store. -/
def LocalTransactionProver.load_library (p : LocalTransactionProver) (l : Library) :
    LocalTransactionProver :=
  { p with mastStore := p.mastStore.insert l.mastForest }

-- ERRORS
-- ================================================================================================

/-- `TransactionProverError`: one variant per failing stage of `prove`.
Inner error payloads are abstracted as natural numbers. -/
inductive TransactionProverError where
  | TransactionHostCreationFailed (e : Nat)
  | TransactionProgramExecutionFailed (e : Nat)
  | TransactionOutputConstructionFailed (e : Nat)
  | AccountDeltaApplyFailed (e : Nat)
  | ProvenTransactionBuildFailed (e : Nat)
  deriving DecidableEq, Repr

-- EXECUTION HOST AND ADVICE PROVIDER
-- ================================================================================================

/-- `MemAdviceProvider`: `into_parts` yields its stack, map and Merkle store;
`prove` uses only the map. -/
structure MemAdviceProvider where
  adviceStack : Nat
  adviceMap : List (Digest × List Nat)
  merkleStore : Nat
  deriving DecidableEq, Repr

/-- The execution host's observable state: `into_parts` yields the advice
provider, the accumulated account delta, the collected output notes, the
signature requests and the progress tracker. -/
structure TransactionHost where
  adviceProvider : MemAdviceProvider
  accountDelta : AccountDelta
  outputNotes : List OutputNote
  signatures : List Nat
  txProgress : Nat
  deriving DecidableEq, Repr

-- PROVEN TRANSACTION AND BUILDER
-- ================================================================================================

/-- The immutable proven-transaction record. -/
structure ProvenTransaction where
  accountId : Nat
  initAccountHash : Digest
  finalAccountHash : Digest
  blockRef : Digest
  expirationBlockNum : Nat
  inputNotes : List Nat
  outputNotes : List OutputNote
  proof : Proof
  accountUpdateDetails : Option AccountUpdateDetails
  deriving DecidableEq, Repr

/-- Modelled from the spec: `ProvenTransactionBuilder` (miden-objects, not
under src/): accumulates the mandatory fields of the record; update details
default to the absent (private) form. -/
structure ProvenTransactionBuilder where
  accountId : Nat
  initAccountHash : Digest
  finalAccountHash : Digest
  blockRef : Digest
  expirationBlockNum : Nat
  proof : Proof
  inputNotes : List Nat
  outputNotes : List OutputNote
  accountUpdateDetails : Option AccountUpdateDetails
  deriving DecidableEq, Repr

/-- `ProvenTransactionBuilder::new` with the six mandatory arguments. -/
def ProvenTransactionBuilder.new (accountId : Nat) (initAccountHash finalAccountHash : Digest)
    (blockRef : Digest) (expirationBlockNum : Nat) (proof : Proof) : ProvenTransactionBuilder :=
  { accountId := accountId, initAccountHash := initAccountHash,
    finalAccountHash := finalAccountHash, blockRef := blockRef,
    expirationBlockNum := expirationBlockNum, proof := proof,
    inputNotes := [], outputNotes := [], accountUpdateDetails := none }

/-- `ProvenTransactionBuilder::add_input_notes`. -/
def ProvenTransactionBuilder.add_input_notes (b : ProvenTransactionBuilder) (notes : List Nat) :
    ProvenTransactionBuilder :=
  { b with inputNotes := b.inputNotes ++ notes }

/-- `ProvenTransactionBuilder::add_output_notes`. -/
def ProvenTransactionBuilder.add_output_notes (b : ProvenTransactionBuilder)
    (notes : List OutputNote) : ProvenTransactionBuilder :=
  { b with outputNotes := b.outputNotes ++ notes }

/-- `ProvenTransactionBuilder::account_update_details`. -/
def ProvenTransactionBuilder.account_update_details (b : ProvenTransactionBuilder)
    (details : AccountUpdateDetails) : ProvenTransactionBuilder :=
  { b with accountUpdateDetails := some details }

/-- The record assembled by a successful `build`: exactly the builder's
fields. -/
def ProvenTransactionBuilder.toRecord (b : ProvenTransactionBuilder) : ProvenTransaction :=
  { accountId := b.accountId, initAccountHash := b.initAccountHash,
    finalAccountHash := b.finalAccountHash, blockRef := b.blockRef,
    expirationBlockNum := b.expirationBlockNum, inputNotes := b.inputNotes,
    outputNotes := b.outputNotes, proof := b.proof,
    accountUpdateDetails := b.accountUpdateDetails }

-- PROVER ENVIRONMENT: EXTERNAL COLLABORATORS OF `prove`
-- ================================================================================================

/-- The external collaborators invoked by `prove`, none of which is part of
the embedded source file: `TransactionKernel::prepare_inputs` and
`TransactionKernel::main` (miden-lib), `TransactionMastStore::
load_transaction_code` (miden-tx executor), `TransactionHost::new` (miden-tx
host), the opaque proving engine `prove` (miden-prover),
`TransactionKernel::from_transaction_parts` (miden-lib),
`Account::apply_delta` (miden-objects) and the builder's `build` validity
check (miden-objects).  Theorems about `prove` quantify over this record. -/
structure ProverEnv where
  prepareInputs : TxInputs → TxArgs → AdviceWitness → StackInputs × MemAdviceProvider
  loadTransactionCode : MastStore → TxInputs → TxArgs → MastStore
  kernelMain : Program
  hostNew : Nat → MemAdviceProvider → MastStore → List Digest → Except Nat TransactionHost
  proveEngine : Program → StackInputs → TransactionHost → ProvingOptions →
    Except Nat (StackOutputs × Proof × TransactionHost)
  fromTransactionParts : StackOutputs → List (Digest × List Nat) → List OutputNote →
    Except Nat (Digest × Nat × List OutputNote)
  applyDelta : Account → AccountDelta → Except Nat Account
  buildCheck : ProvenTransactionBuilder → Option Nat

/-- Structured transaction outputs reconstructed from raw machine outputs:
final account-state hash, expiration block number, output notes. -/
structure TransactionOutputs where
  accountHash : Digest
  expirationBlockNum : Nat
  outputNotes : List OutputNote
  deriving DecidableEq, Repr

/-- `TransactionKernel::from_transaction_parts`, wrapped into the structured
output record. -/
def ProverEnv.txOutputsOf (env : ProverEnv) (stackOutputs : StackOutputs)
    (map : List (Digest × List Nat)) (outputNotes : List OutputNote) :
    Except Nat TransactionOutputs :=
  match env.fromTransactionParts stackOutputs map outputNotes with
  | .error e => .error e
  | .ok (h, exp, notes) =>
    .ok { accountHash := h, expirationBlockNum := exp, outputNotes := notes }

/-- Modelled from the spec: `ProvenTransactionBuilder::build` "fails with
build failed if any required field is absent or internally inconsistent"; on
success the record combines exactly the given fields.  The consistency check
itself is the environment's `buildCheck`. -/
def ProvenTransactionBuilder.build (b : ProvenTransactionBuilder) (env : ProverEnv) :
    Except TransactionProverError ProvenTransaction :=
  match env.buildCheck b with
  | some e => .error (.ProvenTransactionBuildFailed e)
  | none => .ok b.toRecord

-- THE PROVE PIPELINE
-- ================================================================================================

/-- `LocalTransactionProver::prove`, translated stage by stage from the
source: destructure the witness, load account code into the MAST store,
prepare kernel inputs, load transaction code, create the execution host,
invoke the proving engine, extract the host's parts, reconstruct the
transaction outputs, redact output notes, assemble the builder, select the
account-update metadata from the snapshot's visibility and novelty flags, and
build the final record.  Each external collaborator is taken from `env`. -/
def LocalTransactionProver.prove (env : ProverEnv) (self : LocalTransactionProver)
    (txWitness : TransactionWitness) : Except TransactionProverError ProvenTransaction :=
  let txInputs := txWitness.txInputs
  let txArgs := txWitness.txArgs
  let adviceWitness := txWitness.adviceWitness
  let accountCodes := txWitness.accountCodes
  let store := accountCodes.foldl MastStore.load_account_code self.mastStore
  let account := txInputs.account
  let inputNotes := txInputs.inputNotes
  let blockHash := txInputs.blockHeader.blockHash
  let prepared := env.prepareInputs txInputs txArgs adviceWitness
  let stackInputs := prepared.1
  let adviceProvider := prepared.2
  let store := env.loadTransactionCode store txInputs txArgs
  match env.hostNew account.accountId adviceProvider store
      (accountCodes.map AccountCode.commitment) with
  | .error e => .error (.TransactionHostCreationFailed e)
  | .ok host =>
    match env.proveEngine env.kernelMain stackInputs host self.proofOptions with
    | .error e => .error (.TransactionProgramExecutionFailed e)
    | .ok (stackOutputs, proof, host) =>
      let accountDelta := host.accountDelta
      let rawOutputNotes := host.outputNotes
      let map := host.adviceProvider.adviceMap
      match env.txOutputsOf stackOutputs map rawOutputNotes with
      | .error e => .error (.TransactionOutputConstructionFailed e)
      | .ok txOutputs =>
        let outputNotes := txOutputs.outputNotes.map OutputNote.shrink
        let builder := ProvenTransactionBuilder.new account.accountId account.initHash
          txOutputs.accountHash blockHash txOutputs.expirationBlockNum proof
        let builder := (builder.add_input_notes inputNotes).add_output_notes outputNotes
        match account.isPublic with
        | true =>
          match account.isNew with
          | true =>
            match env.applyDelta account accountDelta with
            | .error e => .error (.AccountDeltaApplyFailed e)
            | .ok newAccount =>
              (builder.account_update_details (.New newAccount)).build env
          | false =>
            (builder.account_update_details (.Delta accountDelta)).build env
        | false => builder.build env

-- STAGE VIEWS OF THE PIPELINE
-- ================================================================================================

/-- The MAST store as it stands when the host is created: account code loaded
first, transaction code afterwards. -/
def proveStore (env : ProverEnv) (self : LocalTransactionProver) (w : TransactionWitness) :
    MastStore :=
  env.loadTransactionCode (w.accountCodes.foldl MastStore.load_account_code self.mastStore)
    w.txInputs w.txArgs

/-- The prepared kernel inputs of a run of `prove`. -/
def provePrepared (env : ProverEnv) (w : TransactionWitness) : StackInputs × MemAdviceProvider :=
  env.prepareInputs w.txInputs w.txArgs w.adviceWitness

/-- The host-creation stage of a run of `prove`. -/
def proveHostInit (env : ProverEnv) (self : LocalTransactionProver) (w : TransactionWitness) :
    Except Nat TransactionHost :=
  env.hostNew w.txInputs.account.accountId (provePrepared env w).2 (proveStore env self w)
    (w.accountCodes.map AccountCode.commitment)

/-- The engine stage of a run of `prove`: the raw stack outputs, the proof and
the final host state, or the first failing stage's tagged error. -/
def proveEngineResult (env : ProverEnv) (self : LocalTransactionProver)
    (w : TransactionWitness) :
    Except TransactionProverError (StackOutputs × Proof × TransactionHost) :=
  match proveHostInit env self w with
  | .error e => .error (.TransactionHostCreationFailed e)
  | .ok host =>
    match env.proveEngine env.kernelMain (provePrepared env w).1 host self.proofOptions with
    | .error e => .error (.TransactionProgramExecutionFailed e)
    | .ok r => .ok r

/-- The assembly stage of a run of `prove`: redaction, the builder chain, the
account-update metadata selection and the final build, given the reconstructed
transaction outputs. -/
def proveAssemble (env : ProverEnv) (w : TransactionWitness) (proof : Proof)
    (host : TransactionHost) (txOutputs : TransactionOutputs) :
    Except TransactionProverError ProvenTransaction :=
  let account := w.txInputs.account
  let accountDelta := host.accountDelta
  let outputNotes := txOutputs.outputNotes.map OutputNote.shrink
  let builder := ProvenTransactionBuilder.new account.accountId account.initHash
    txOutputs.accountHash w.txInputs.blockHeader.blockHash txOutputs.expirationBlockNum proof
  let builder := (builder.add_input_notes w.txInputs.inputNotes).add_output_notes outputNotes
  match account.isPublic with
  | true =>
    match account.isNew with
    | true =>
      match env.applyDelta account accountDelta with
      | .error e => .error (.AccountDeltaApplyFailed e)
      | .ok newAccount => (builder.account_update_details (.New newAccount)).build env
    | false => (builder.account_update_details (.Delta accountDelta)).build env
  | false => builder.build env

/-- The tail of the pipeline after the engine stage: output reconstruction
followed by assembly. -/
def proveRest (env : ProverEnv) (w : TransactionWitness)
    (stackOutputs : StackOutputs) (proof : Proof) (host : TransactionHost) :
    Except TransactionProverError ProvenTransaction :=
  match env.txOutputsOf stackOutputs host.adviceProvider.adviceMap host.outputNotes with
  | .error e => .error (.TransactionOutputConstructionFailed e)
  | .ok txOutputs => proveAssemble env w proof host txOutputs

/-- The base builder assembled by a run of `prove`, before metadata
selection. -/
def proveBuilderBase (w : TransactionWitness) (proof : Proof)
    (txOutputs : TransactionOutputs) : ProvenTransactionBuilder :=
  ((ProvenTransactionBuilder.new w.txInputs.account.accountId w.txInputs.account.initHash
      txOutputs.accountHash w.txInputs.blockHeader.blockHash txOutputs.expirationBlockNum
      proof).add_input_notes w.txInputs.inputNotes).add_output_notes
    (txOutputs.outputNotes.map OutputNote.shrink)

/-- The builder handed to the final `build` by a run of `prove`, after
metadata selection, or the delta-apply failure raised during selection. -/
def proveFinalBuilder (env : ProverEnv) (w : TransactionWitness) (proof : Proof)
    (host : TransactionHost) (txOutputs : TransactionOutputs) :
    Except TransactionProverError ProvenTransactionBuilder :=
  let account := w.txInputs.account
  let builder := proveBuilderBase w proof txOutputs
  match account.isPublic with
  | true =>
    match account.isNew with
    | true =>
      match env.applyDelta account host.accountDelta with
      | .error e => .error (.AccountDeltaApplyFailed e)
      | .ok newAccount => .ok (builder.account_update_details (.New newAccount))
    | false => .ok (builder.account_update_details (.Delta host.accountDelta))
  | false => .ok builder

-- WORKER LAYER
-- ================================================================================================

/-- A backend service endpoint (pingora `Backend`), identified by its
address. -/
structure Backend where
  addr : String
  deriving DecidableEq, Repr

/-- A gRPC health-check client; its channel state is opaque transient data. -/
structure HealthClient where
  channelState : Nat
  deriving DecidableEq, Repr

/-- Errors of `Worker::new`, from the source's documented error cases. -/
inductive ProvingServiceError where
  | InvalidURI (uri : String)
  | ConnectionFailed (addr : String)
  deriving DecidableEq, Repr

/-- A worker record: backend address, health-check client, availability
flag. -/
structure Worker where
  backend : Backend
  health_check_client : HealthClient
  is_available : Bool
  deriving DecidableEq, Repr

/-- `Worker::new`: the health-check client creation
(`create_health_check_client`, not under src/) is taken as a parameter; on its
success the worker holds the given backend, the created client, and
availability set to true. -/
def Worker.new (worker : Backend)
    (clientResult : Except ProvingServiceError HealthClient) :
    Except ProvingServiceError Worker :=
  match clientResult with
  | .error e => .error e
  | .ok health_check_client =>
    .ok { backend := worker, is_available := true,
          health_check_client := health_check_client }

/-- `Worker::set_availability`. -/
def Worker.set_availability (w : Worker) (is_available : Bool) : Worker :=
  { w with is_available := is_available }

/-- The serving status reported by the gRPC health protocol. -/
inductive ServingStatus where
  | Unknown
  | Serving
  | NotServing
  | ServiceUnknown
  deriving DecidableEq, Repr

/-- A health-check response carrying a serving status. -/
structure HealthCheckResponse where
  status : ServingStatus
  deriving DecidableEq, Repr

/-- `Worker::is_healthy`: the outcome of the health-check RPC on the worker's
client is taken as a parameter (transport/RPC errors abstracted as strings);
the result is true exactly when the call succeeded with status Serving. -/
def Worker.is_healthy (_self : Worker)
    (check : Except String HealthCheckResponse) : Bool :=
  match check with
  | .ok response => response.status == ServingStatus.Serving
  | .error _ => false

/-- The `PartialEq` implementation of `Worker`: comparison by backend only. -/
def Worker.beq (a b : Worker) : Bool :=
  a.backend == b.backend

-- CONCRETE FIXTURES
-- ================================================================================================

/-- A concrete account delta used by the concrete environments below. -/
def testDelta : AccountDelta :=
  { storageUpdates := [(1, 5)], nonceDelta := 1 }

/-- A concrete advice provider. -/
def testAdvice : MemAdviceProvider :=
  { adviceStack := 0, adviceMap := [(7, [1])], merkleStore := 0 }

/-- A freshly created host around a given advice provider. -/
def testHost0 (ap : MemAdviceProvider) : TransactionHost :=
  { adviceProvider := ap, accountDelta := { storageUpdates := [], nonceDelta := 0 },
    outputNotes := [], signatures := [], txProgress := 0 }

/-- A concrete note header. -/
def testNoteHeader : NoteHeader :=
  { noteId := 3, noteMetadata := 4 }

/-- A concrete full output note. -/
def testFullNote : OutputNote :=
  .full testNoteHeader { assets := [9], script := 2, recipientData := 8 }

/-- A concrete private account snapshot. -/
def testAccountPriv : Account :=
  { accountId := 1, isPublic := false, isNew := false, initHash := 100, storage := [], nonce := 0 }

/-- A concrete public pre-existing account snapshot. -/
def testAccountPubOld : Account :=
  { accountId := 2, isPublic := true, isNew := false, initHash := 101, storage := [], nonce := 4 }

/-- A concrete public new account snapshot. -/
def testAccountPubNew : Account :=
  { accountId := 3, isPublic := true, isNew := true, initHash := 102, storage := [], nonce := 0 }

/-- A concrete witness around a given account snapshot. -/
def testWitnessOf (a : Account) : TransactionWitness :=
  { txInputs := { account := a, inputNotes := [11, 12], blockHeader := { blockHash := 55 } },
    txArgs := 0, adviceWitness := 0, accountCodes := [] }

/-- A concrete environment in which every stage succeeds: the engine run
accumulates `testDelta` and one full output note. -/
def testEnv : ProverEnv :=
  { prepareInputs := fun _ _ _ => (0, testAdvice),
    loadTransactionCode := fun s _ _ => s,
    kernelMain := 0,
    hostNew := fun _ ap _ _ => .ok (testHost0 ap),
    proveEngine := fun _ _ h _ =>
      .ok (5, [9], { h with accountDelta := testDelta, outputNotes := [testFullNote] }),
    fromTransactionParts := fun so _ notes => .ok (so, 3, notes),
    applyDelta := fun a d =>
      .ok { a with nonce := a.nonce + d.nonceDelta, storage := d.storageUpdates ++ a.storage },
    buildCheck := fun _ => none }

/-- `testEnv` with a failing host-creation stage. -/
def testEnvHostFail : ProverEnv :=
  { testEnv with hostNew := fun _ _ _ _ => .error 3 }

/-- `testEnv` with a failing delta-application stage. -/
def testEnvDeltaFail : ProverEnv :=
  { testEnv with applyDelta := fun _ _ => .error 7 }

/-- `testEnv` with an engine differing only in the returned proof bytes. -/
def testEnvProofB : ProverEnv :=
  { testEnv with
    proveEngine := fun _ _ h _ =>
      .ok (5, [10], { h with accountDelta := testDelta, outputNotes := [testFullNote] }) }

/-- A concrete prover instance with an empty code cache. -/
def testProver : LocalTransactionProver :=
  { mastStore := { entries := [] }, proofOptions := 0 }

/-- A concrete backend address. -/
def testBackend : Backend :=
  { addr := "10.0.0.1:8082" }

/-- A concrete health-check client. -/
def testClient : HealthClient :=
  { channelState := 0 }

/-- The worker produced by `Worker.new` on `testBackend` and `testClient`. -/
def testWorker : Worker :=
  { backend := testBackend, health_check_client := testClient, is_available := true }

/-- A concrete library. -/
def testLibrary : Library :=
  { mastForest := { root := 10, nodes := [1, 2] } }

/-- The record produced by `prove` on `testEnv` for the private account. -/
def testTxPriv : ProvenTransaction :=
  { accountId := 1, initAccountHash := 100, finalAccountHash := 5, blockRef := 55,
    expirationBlockNum := 3, inputNotes := [11, 12],
    outputNotes := [.header testNoteHeader], proof := [9], accountUpdateDetails := none }

/-- The record produced by `prove` on `testEnv` for the public pre-existing
account. -/
def testTxPubOld : ProvenTransaction :=
  { accountId := 2, initAccountHash := 101, finalAccountHash := 5, blockRef := 55,
    expirationBlockNum := 3, inputNotes := [11, 12],
    outputNotes := [.header testNoteHeader], proof := [9],
    accountUpdateDetails := some (.Delta testDelta) }

/-- The public new account after `testEnv`'s delta application. -/
def testAccountPubNewApplied : Account :=
  { accountId := 3, isPublic := true, isNew := true, initHash := 102,
    storage := [(1, 5)], nonce := 1 }

/-- The record produced by `prove` on `testEnv` for the public new account. -/
def testTxPubNew : ProvenTransaction :=
  { accountId := 3, initAccountHash := 102, finalAccountHash := 5, blockRef := 55,
    expirationBlockNum := 3, inputNotes := [11, 12],
    outputNotes := [.header testNoteHeader], proof := [9],
    accountUpdateDetails := some (.New testAccountPubNewApplied) }

/-- The record produced by `prove` on `testEnvProofB` for the public
pre-existing account: same as `testTxPubOld` except for the proof bytes. -/
def testTxPubOldB : ProvenTransaction :=
  { testTxPubOld with proof := [10] }

end MidenBase

namespace MidenBase

/-- `prove` factors through its stage views: the engine stage followed by the
pipeline tail. -/
theorem prove_stages (env : ProverEnv) (self : LocalTransactionProver) (w : TransactionWitness) :
    LocalTransactionProver.prove env self w =
      match proveEngineResult env self w with
      | .error e => .error e
      | .ok (stackOutputs, proof, host) => proveRest env w stackOutputs proof host := by
  unfold LocalTransactionProver.prove proveEngineResult proveHostInit provePrepared proveStore
    proveRest proveAssemble
  dsimp only
  cases env.hostNew w.txInputs.account.accountId
      (env.prepareInputs w.txInputs w.txArgs w.adviceWitness).2
      (env.loadTransactionCode (w.accountCodes.foldl MastStore.load_account_code self.mastStore)
        w.txInputs w.txArgs)
      (w.accountCodes.map AccountCode.commitment) with
  | error e => rfl
  | ok host =>
    dsimp only
    cases env.proveEngine env.kernelMain
        (env.prepareInputs w.txInputs w.txArgs w.adviceWitness).1 host self.proofOptions with
    | error e => rfl
    | ok r => rfl

/-- A successful `build` passes the consistency check and returns exactly the
builder's fields. -/
theorem build_ok_iff (b : ProvenTransactionBuilder) (env : ProverEnv) (tx : ProvenTransaction) :
    b.build env = .ok tx ↔ env.buildCheck b = none ∧ tx = b.toRecord := by
  unfold ProvenTransactionBuilder.build
  cases h : env.buildCheck b with
  | none => simp [eq_comm]
  | some e => simp

/-- A failing `build` is exactly a failing consistency check, tagged as a
build failure. -/
theorem build_error_iff (b : ProvenTransactionBuilder) (env : ProverEnv)
    (e : TransactionProverError) :
    b.build env = .error e ↔ ∃ e0, env.buildCheck b = some e0 ∧
      e = .ProvenTransactionBuildFailed e0 := by
  unfold ProvenTransactionBuilder.build
  cases h : env.buildCheck b with
  | none => simp
  | some e0 => simp [eq_comm]

/-- Field-level characterization of a successful assembly stage. -/
theorem proveAssemble_ok (env : ProverEnv) (w : TransactionWitness) (pf : Proof)
    (host : TransactionHost) (txOutputs : TransactionOutputs) (tx : ProvenTransaction)
    (hp : proveAssemble env w pf host txOutputs = .ok tx) :
    tx.accountId = w.txInputs.account.accountId ∧
    tx.initAccountHash = w.txInputs.account.initHash ∧
    tx.finalAccountHash = txOutputs.accountHash ∧
    tx.blockRef = w.txInputs.blockHeader.blockHash ∧
    tx.expirationBlockNum = txOutputs.expirationBlockNum ∧
    tx.inputNotes = w.txInputs.inputNotes ∧
    tx.outputNotes = txOutputs.outputNotes.map OutputNote.shrink ∧
    tx.proof = pf ∧
    ((w.txInputs.account.isPublic = false ∧ tx.accountUpdateDetails = none) ∨
     (w.txInputs.account.isPublic = true ∧ w.txInputs.account.isNew = false ∧
       tx.accountUpdateDetails = some (.Delta host.accountDelta)) ∨
     (w.txInputs.account.isPublic = true ∧ w.txInputs.account.isNew = true ∧
       ∃ a, env.applyDelta w.txInputs.account host.accountDelta = .ok a ∧
         tx.accountUpdateDetails = some (.New a))) := by
  unfold proveAssemble at hp
  dsimp only at hp
  cases hpub : w.txInputs.account.isPublic with
  | false =>
    rw [hpub] at hp
    obtain ⟨-, rfl⟩ := (build_ok_iff _ _ _).mp hp
    simp [ProvenTransactionBuilder.toRecord, ProvenTransactionBuilder.new,
      ProvenTransactionBuilder.add_input_notes, ProvenTransactionBuilder.add_output_notes]
  | true =>
    rw [hpub] at hp
    cases hnew : w.txInputs.account.isNew with
    | false =>
      rw [hnew] at hp
      obtain ⟨-, rfl⟩ := (build_ok_iff _ _ _).mp hp
      simp [ProvenTransactionBuilder.toRecord, ProvenTransactionBuilder.new,
        ProvenTransactionBuilder.add_input_notes, ProvenTransactionBuilder.add_output_notes,
        ProvenTransactionBuilder.account_update_details]
    | true =>
      rw [hnew] at hp
      cases ha : env.applyDelta w.txInputs.account host.accountDelta with
      | error e => rw [ha] at hp; cases hp
      | ok a =>
        rw [ha] at hp
        obtain ⟨-, rfl⟩ := (build_ok_iff _ _ _).mp hp
        refine ⟨rfl, rfl, rfl, rfl, rfl, ?_, rfl, rfl, Or.inr (Or.inr ⟨rfl, rfl, a, rfl, rfl⟩)⟩
        simp [ProvenTransactionBuilder.toRecord, ProvenTransactionBuilder.new,
          ProvenTransactionBuilder.add_input_notes, ProvenTransactionBuilder.add_output_notes,
          ProvenTransactionBuilder.account_update_details]

/-- A successful run of `prove` decomposes into a successful engine stage, a
successful output reconstruction and a successful assembly. -/
theorem prove_ok_char (env : ProverEnv) (self : LocalTransactionProver) (w : TransactionWitness)
    (tx : ProvenTransaction) (hp : LocalTransactionProver.prove env self w = .ok tx) :
    ∃ so pf host txOutputs,
      proveEngineResult env self w = .ok (so, pf, host) ∧
      env.txOutputsOf so host.adviceProvider.adviceMap host.outputNotes = .ok txOutputs ∧
      proveAssemble env w pf host txOutputs = .ok tx := by
  rw [prove_stages] at hp
  cases her : proveEngineResult env self w with
  | error e => rw [her] at hp; cases hp
  | ok r =>
    obtain ⟨so, pf, host⟩ := r
    rw [her] at hp
    dsimp only at hp
    unfold proveRest at hp
    cases hto : env.txOutputsOf so host.adviceProvider.adviceMap host.outputNotes with
    | error e => rw [hto] at hp; cases hp
    | ok txOutputs =>
      rw [hto] at hp
      refine ⟨so, pf, host, txOutputs, ?_, ?_, hp⟩ <;> simp [her, hto]

/-- The engine stage fails exactly when host creation fails (tagged as a
host-creation failure) or the engine itself fails on the created host (tagged
as a program-execution failure). -/
theorem proveEngineResult_error_char (env : ProverEnv) (self : LocalTransactionProver)
    (w : TransactionWitness) (e : TransactionProverError) :
    proveEngineResult env self w = .error e ↔
      ((∃ e0, e = .TransactionHostCreationFailed e0 ∧ proveHostInit env self w = .error e0) ∨
       (∃ e0 host, e = .TransactionProgramExecutionFailed e0 ∧
         proveHostInit env self w = .ok host ∧
         env.proveEngine env.kernelMain (provePrepared env w).1 host self.proofOptions =
           .error e0)) := by
  unfold proveEngineResult
  cases hh : proveHostInit env self w with
  | error e0 =>
    simp only [hh]
    constructor
    · intro h
      exact Or.inl ⟨e0, (Except.error.injEq _ _).mp h.symm, rfl⟩
    · rintro (⟨e1, rfl, he⟩ | ⟨e1, host, rfl, he, -⟩)
      · obtain rfl := (Except.error.injEq _ _).mp he
        rfl
      · cases he
  | ok host =>
    simp only [hh]
    cases hg : env.proveEngine env.kernelMain (provePrepared env w).1 host self.proofOptions with
    | error e0 =>
      constructor
      · intro h
        exact Or.inr ⟨e0, host, (Except.error.injEq _ _).mp h.symm, rfl, hg⟩
      · rintro (⟨e1, rfl, he⟩ | ⟨e1, host1, rfl, he, hg1⟩)
        · cases he
        · obtain rfl := (Except.ok.injEq _ _).mp he
          rw [hg] at hg1
          obtain rfl := (Except.error.injEq _ _).mp hg1
          rfl
    | ok r =>
      constructor
      · intro h
        cases h
      · rintro (⟨e1, rfl, he⟩ | ⟨e1, host1, rfl, he, hg1⟩)
        · cases he
        · obtain rfl := (Except.ok.injEq _ _).mp he
          rw [hg] at hg1
          cases hg1

/-- The assembly stage factors through metadata selection followed by the
final build. -/
theorem proveAssemble_eq_final (env : ProverEnv) (w : TransactionWitness) (pf : Proof)
    (host : TransactionHost) (txOutputs : TransactionOutputs) :
    proveAssemble env w pf host txOutputs =
      match proveFinalBuilder env w pf host txOutputs with
      | .error e => .error e
      | .ok b => b.build env := by
  unfold proveAssemble proveFinalBuilder proveBuilderBase
  dsimp only
  cases w.txInputs.account.isPublic with
  | false => rfl
  | true =>
    cases w.txInputs.account.isNew with
    | false => rfl
    | true =>
      cases env.applyDelta w.txInputs.account host.accountDelta with
      | error e => rfl
      | ok a => rfl

/-- The assembly stage fails exactly when delta application fails for a public
new account (tagged as a delta-apply failure) or the selected builder's final
consistency check fails (tagged as a build failure). -/
theorem proveAssemble_error_char (env : ProverEnv) (w : TransactionWitness) (pf : Proof)
    (host : TransactionHost) (txOutputs : TransactionOutputs) (e : TransactionProverError) :
    proveAssemble env w pf host txOutputs = .error e ↔
      ((∃ e0, e = .AccountDeltaApplyFailed e0 ∧
         w.txInputs.account.isPublic = true ∧ w.txInputs.account.isNew = true ∧
         env.applyDelta w.txInputs.account host.accountDelta = .error e0) ∨
       (∃ e0 b, e = .ProvenTransactionBuildFailed e0 ∧
         proveFinalBuilder env w pf host txOutputs = .ok b ∧
         env.buildCheck b = some e0)) := by
  rw [proveAssemble_eq_final]
  unfold proveFinalBuilder
  dsimp only
  cases hpub : w.txInputs.account.isPublic with
  | false =>
    rw [build_error_iff]
    constructor
    · rintro ⟨e0, hb, rfl⟩
      exact Or.inr ⟨e0, _, rfl, rfl, hb⟩
    · rintro (⟨e0, rfl, hp, -, -⟩ | ⟨e0, b, rfl, hb, hc⟩)
      · cases hp
      · obtain rfl := (Except.ok.injEq _ _).mp hb
        exact ⟨e0, hc, rfl⟩
  | true =>
    cases hnew : w.txInputs.account.isNew with
    | false =>
      rw [build_error_iff]
      constructor
      · rintro ⟨e0, hb, rfl⟩
        exact Or.inr ⟨e0, _, rfl, rfl, hb⟩
      · rintro (⟨e0, rfl, -, hn, -⟩ | ⟨e0, b, rfl, hb, hc⟩)
        · cases hn
        · obtain rfl := (Except.ok.injEq _ _).mp hb
          exact ⟨e0, hc, rfl⟩
    | true =>
      cases ha : env.applyDelta w.txInputs.account host.accountDelta with
      | error e0 =>
        constructor
        · intro h
          exact Or.inl ⟨e0, (Except.error.injEq _ _).mp h.symm, rfl, rfl, rfl⟩
        · rintro (⟨e1, rfl, -, -, ha1⟩ | ⟨e1, b, rfl, hb, -⟩)
          · obtain rfl := (Except.error.injEq _ _).mp ha1
            rfl
          · cases hb
      | ok a =>
        rw [build_error_iff]
        constructor
        · rintro ⟨e0, hb, rfl⟩
          exact Or.inr ⟨e0, _, rfl, rfl, hb⟩
        · rintro (⟨e0, rfl, -, -, ha1⟩ | ⟨e0, b, rfl, hb, hc⟩)
          · cases ha1
          · obtain rfl := (Except.ok.injEq _ _).mp hb
            exact ⟨e0, hc, rfl⟩

/-- A run of `prove` fails exactly when its first failing stage does, and the
returned error is that stage's tagged error: host creation, program
execution/proving, output construction, delta application (public new
accounts), or the final build. -/
theorem prove_error_char (env : ProverEnv) (self : LocalTransactionProver)
    (w : TransactionWitness) (e : TransactionProverError) :
    LocalTransactionProver.prove env self w = .error e ↔
      ((∃ e0, e = .TransactionHostCreationFailed e0 ∧ proveHostInit env self w = .error e0) ∨
       (∃ e0 host, e = .TransactionProgramExecutionFailed e0 ∧
         proveHostInit env self w = .ok host ∧
         env.proveEngine env.kernelMain (provePrepared env w).1 host self.proofOptions =
           .error e0) ∨
       (∃ e0 so pf host, e = .TransactionOutputConstructionFailed e0 ∧
         proveEngineResult env self w = .ok (so, pf, host) ∧
         env.txOutputsOf so host.adviceProvider.adviceMap host.outputNotes = .error e0) ∨
       (∃ e0 so pf host txOutputs, e = .AccountDeltaApplyFailed e0 ∧
         proveEngineResult env self w = .ok (so, pf, host) ∧
         env.txOutputsOf so host.adviceProvider.adviceMap host.outputNotes = .ok txOutputs ∧
         w.txInputs.account.isPublic = true ∧ w.txInputs.account.isNew = true ∧
         env.applyDelta w.txInputs.account host.accountDelta = .error e0) ∨
       (∃ e0 so pf host txOutputs b, e = .ProvenTransactionBuildFailed e0 ∧
         proveEngineResult env self w = .ok (so, pf, host) ∧
         env.txOutputsOf so host.adviceProvider.adviceMap host.outputNotes = .ok txOutputs ∧
         proveFinalBuilder env w pf host txOutputs = .ok b ∧
         env.buildCheck b = some e0)) := by
  rw [prove_stages]
  cases her : proveEngineResult env self w with
  | error e1 =>
    constructor
    · intro h
      obtain rfl := (Except.error.injEq _ _).mp h
      rcases (proveEngineResult_error_char env self w e1).mp her with h12 | h12
      · exact Or.inl h12
      · exact Or.inr (Or.inl h12)
    · rintro (h12 | h12 | ⟨e0, so, pf, host, rfl, hok, -⟩ |
        ⟨e0, so, pf, host, txOutputs, rfl, hok, -⟩ |
        ⟨e0, so, pf, host, txOutputs, b, rfl, hok, -⟩)
      · have hthis := (proveEngineResult_error_char env self w e).mpr (Or.inl h12)
        rw [her] at hthis
        obtain rfl := (Except.error.injEq _ _).mp hthis
        rfl
      · have hthis := (proveEngineResult_error_char env self w e).mpr (Or.inr h12)
        rw [her] at hthis
        obtain rfl := (Except.error.injEq _ _).mp hthis
        rfl
      all_goals cases hok
  | ok r =>
    obtain ⟨so, pf, host⟩ := r
    dsimp only
    unfold proveRest
    have hnoterr : ∀ e2, proveEngineResult env self w ≠ .error e2 := by
      intro e2 hcon
      rw [her] at hcon
      cases hcon
    cases hto : env.txOutputsOf so host.adviceProvider.adviceMap host.outputNotes with
    | error e1 =>
      constructor
      · intro h
        obtain rfl := (Except.error.injEq _ _).mp h
        exact Or.inr (Or.inr (Or.inl ⟨e1, so, pf, host, rfl, rfl, hto⟩))
      · rintro (⟨e0, rfl, hh⟩ | ⟨e0, host1, rfl, hh, hg⟩ |
          ⟨e0, so1, pf1, host1, rfl, hok, hto1⟩ |
          ⟨e0, so1, pf1, host1, txOutputs1, rfl, hok, hto1, -⟩ |
          ⟨e0, so1, pf1, host1, txOutputs1, b, rfl, hok, hto1, -⟩)
        · exact absurd ((proveEngineResult_error_char env self w _).mpr (Or.inl ⟨e0, rfl, hh⟩))
            (hnoterr _)
        · exact absurd
            ((proveEngineResult_error_char env self w _).mpr (Or.inr ⟨e0, host1, rfl, hh, hg⟩))
            (hnoterr _)
        · simp only [Except.ok.injEq, Prod.mk.injEq] at hok
          obtain ⟨rfl, rfl, rfl⟩ := hok
          rw [hto] at hto1
          obtain rfl := (Except.error.injEq _ _).mp hto1
          rfl
        · simp only [Except.ok.injEq, Prod.mk.injEq] at hok
          obtain ⟨rfl, rfl, rfl⟩ := hok
          rw [hto] at hto1
          cases hto1
        · simp only [Except.ok.injEq, Prod.mk.injEq] at hok
          obtain ⟨rfl, rfl, rfl⟩ := hok
          rw [hto] at hto1
          cases hto1
    | ok txOutputs =>
      rw [proveAssemble_error_char]
      constructor
      · rintro (⟨e0, rfl, hp, hn, ha⟩ | ⟨e0, b, rfl, hb, hc⟩)
        · exact Or.inr (Or.inr (Or.inr (Or.inl
            ⟨e0, so, pf, host, txOutputs, rfl, rfl, hto, hp, hn, ha⟩)))
        · exact Or.inr (Or.inr (Or.inr (Or.inr
            ⟨e0, so, pf, host, txOutputs, b, rfl, rfl, hto, hb, hc⟩)))
      · rintro (⟨e0, rfl, hh⟩ | ⟨e0, host1, rfl, hh, hg⟩ |
          ⟨e0, so1, pf1, host1, rfl, hok, hto1⟩ |
          ⟨e0, so1, pf1, host1, txOutputs1, rfl, hok, hto1, hp, hn, ha⟩ |
          ⟨e0, so1, pf1, host1, txOutputs1, b, rfl, hok, hto1, hb, hc⟩)
        · exact absurd ((proveEngineResult_error_char env self w _).mpr (Or.inl ⟨e0, rfl, hh⟩))
            (hnoterr _)
        · exact absurd
            ((proveEngineResult_error_char env self w _).mpr (Or.inr ⟨e0, host1, rfl, hh, hg⟩))
            (hnoterr _)
        · simp only [Except.ok.injEq, Prod.mk.injEq] at hok
          obtain ⟨rfl, rfl, rfl⟩ := hok
          rw [hto] at hto1
          cases hto1
        · simp only [Except.ok.injEq, Prod.mk.injEq] at hok
          obtain ⟨rfl, rfl, rfl⟩ := hok
          rw [hto] at hto1
          obtain rfl := (Except.ok.injEq _ _).mp hto1
          exact Or.inl ⟨e0, rfl, hp, hn, ha⟩
        · simp only [Except.ok.injEq, Prod.mk.injEq] at hok
          obtain ⟨rfl, rfl, rfl⟩ := hok
          rw [hto] at hto1
          obtain rfl := (Except.ok.injEq _ _).mp hto1
          exact Or.inr ⟨e0, b, rfl, hb, hc⟩


-- CLAIM C1
-- ================================================================================================

/-- C1: the account-update metadata attached by `prove` is selected exactly by
the snapshot's visibility and novelty flags: not public → no metadata; public
and pre-existing → exactly the delta accumulated by the execution host,
unmodified; public and new → the full state obtained by applying the
accumulated delta to the initial snapshot.  The three forms are mutually
exclusive and the choice is determined by the flags alone. -/
theorem claim_C1_update_metadata_dispatch (env : ProverEnv) (self : LocalTransactionProver)
    (w : TransactionWitness) (tx : ProvenTransaction)
    (hp : LocalTransactionProver.prove env self w = .ok tx) :
    ∃ so pf host, proveEngineResult env self w = .ok (so, pf, host) ∧
      (w.txInputs.account.isPublic = false → tx.accountUpdateDetails = none) ∧
      (w.txInputs.account.isPublic = true → w.txInputs.account.isNew = false →
        tx.accountUpdateDetails = some (.Delta host.accountDelta)) ∧
      (w.txInputs.account.isPublic = true → w.txInputs.account.isNew = true →
        ∃ a, env.applyDelta w.txInputs.account host.accountDelta = .ok a ∧
          tx.accountUpdateDetails = some (.New a)) := by
  obtain ⟨so, pf, host, txOutputs, her, hto, hass⟩ := prove_ok_char env self w tx hp
  obtain ⟨-, -, -, -, -, -, -, -, hdisp⟩ := proveAssemble_ok env w pf host txOutputs tx hass
  refine ⟨so, pf, host, her, ?_, ?_, ?_⟩
  · intro hpub
    rcases hdisp with ⟨-, h⟩ | ⟨hpub1, -, -⟩ | ⟨hpub1, -, -⟩
    · exact h
    · rw [hpub] at hpub1; cases hpub1
    · rw [hpub] at hpub1; cases hpub1
  · intro hpub hnew
    rcases hdisp with ⟨hpub1, -⟩ | ⟨-, -, h⟩ | ⟨-, hnew1, -⟩
    · rw [hpub] at hpub1; cases hpub1
    · exact h
    · rw [hnew] at hnew1; cases hnew1
  · intro hpub hnew
    rcases hdisp with ⟨hpub1, -⟩ | ⟨-, hnew1, -⟩ | ⟨-, -, h⟩
    · rw [hpub] at hpub1; cases hpub1
    · rw [hnew] at hnew1; cases hnew1
    · exact h

/-- C1 witness: the dispatch theorem instantiated on the concrete environment
and the public pre-existing account, with the `prove` hypothesis discharged by
evaluation. -/
theorem claim_C1_update_metadata_dispatch_witness :
    ∃ so pf host,
      proveEngineResult testEnv testProver (testWitnessOf testAccountPubOld) =
        .ok (so, pf, host) ∧
      ((testWitnessOf testAccountPubOld).txInputs.account.isPublic = false →
        testTxPubOld.accountUpdateDetails = none) ∧
      ((testWitnessOf testAccountPubOld).txInputs.account.isPublic = true →
        (testWitnessOf testAccountPubOld).txInputs.account.isNew = false →
        testTxPubOld.accountUpdateDetails = some (.Delta host.accountDelta)) ∧
      ((testWitnessOf testAccountPubOld).txInputs.account.isPublic = true →
        (testWitnessOf testAccountPubOld).txInputs.account.isNew = true →
        ∃ a, testEnv.applyDelta (testWitnessOf testAccountPubOld).txInputs.account
            host.accountDelta = .ok a ∧
          testTxPubOld.accountUpdateDetails = some (.New a)) :=
  claim_C1_update_metadata_dispatch testEnv testProver (testWitnessOf testAccountPubOld)
    testTxPubOld rfl

-- CLAIM C3
-- ================================================================================================

/-- C3: for a public new account the delta is applied to a clone, never to the
caller's snapshot: the initial-state hash recorded in the proven transaction
is read from the unmodified snapshot `w.txInputs.account`, while the attached
metadata is the value obtained by applying the accumulated delta to that same
snapshot.  In this pure embedding the witness (and hence the snapshot it
holds) is immutable, so the caller's copy is observably unchanged; the theorem
exhibits that `prove` derives the recorded initial hash from the pristine
snapshot even on the branch that applies the delta. -/
theorem claim_C3_delta_applied_to_clone (env : ProverEnv) (self : LocalTransactionProver)
    (w : TransactionWitness) (tx : ProvenTransaction)
    (hpub : w.txInputs.account.isPublic = true) (hnew : w.txInputs.account.isNew = true)
    (hp : LocalTransactionProver.prove env self w = .ok tx) :
    tx.initAccountHash = w.txInputs.account.initHash ∧
    tx.accountId = w.txInputs.account.accountId ∧
    ∃ so pf host a, proveEngineResult env self w = .ok (so, pf, host) ∧
      env.applyDelta w.txInputs.account host.accountDelta = .ok a ∧
      tx.accountUpdateDetails = some (.New a) := by
  obtain ⟨so, pf, host, txOutputs, her, hto, hass⟩ := prove_ok_char env self w tx hp
  obtain ⟨hid, hinit, -, -, -, -, -, -, hdisp⟩ := proveAssemble_ok env w pf host txOutputs tx hass
  refine ⟨hinit, hid, so, pf, host, ?_⟩
  rcases hdisp with ⟨hpub1, -⟩ | ⟨-, hnew1, -⟩ | ⟨-, -, a, ha, hdet⟩
  · rw [hpub] at hpub1; cases hpub1
  · rw [hnew] at hnew1; cases hnew1
  · exact ⟨a, her, ha, hdet⟩

/-- C3 witness: the clone theorem instantiated on the concrete environment and
the public new account, with all hypotheses discharged by evaluation. -/
theorem claim_C3_delta_applied_to_clone_witness :
    testTxPubNew.initAccountHash = (testWitnessOf testAccountPubNew).txInputs.account.initHash ∧
    testTxPubNew.accountId = (testWitnessOf testAccountPubNew).txInputs.account.accountId ∧
    ∃ so pf host a,
      proveEngineResult testEnv testProver (testWitnessOf testAccountPubNew) =
        .ok (so, pf, host) ∧
      testEnv.applyDelta (testWitnessOf testAccountPubNew).txInputs.account host.accountDelta =
        .ok a ∧
      testTxPubNew.accountUpdateDetails = some (.New a) :=
  claim_C3_delta_applied_to_clone testEnv testProver (testWitnessOf testAccountPubNew)
    testTxPubNew rfl rfl rfl

-- CLAIM C6
-- ================================================================================================

/-- C6: `prove` returns a delta-apply-failed error only when the account is
public and new in this transaction and applying the accumulated delta to the
snapshot fails; contrapositively, for a private account or a public
pre-existing account no run of `prove` ever returns this error, whatever the
delta contains. -/
theorem claim_C6_delta_apply_error_only_public_new (env : ProverEnv)
    (self : LocalTransactionProver) (w : TransactionWitness) (e : Nat)
    (hp : LocalTransactionProver.prove env self w = .error (.AccountDeltaApplyFailed e)) :
    w.txInputs.account.isPublic = true ∧ w.txInputs.account.isNew = true ∧
    ∃ so pf host, proveEngineResult env self w = .ok (so, pf, host) ∧
      env.applyDelta w.txInputs.account host.accountDelta = .error e := by
  rcases (prove_error_char env self w _).mp hp with
    ⟨e0, he, -⟩ | ⟨e0, host, he, -, -⟩ | ⟨e0, so, pf, host, he, -, -⟩ |
    ⟨e0, so, pf, host, txOutputs, he, hok, hto, hpub, hnew, ha⟩ |
    ⟨e0, so, pf, host, txOutputs, b, he, -, -, -, -⟩
  · cases he
  · cases he
  · cases he
  · injection he with he1
    subst he1
    exact ⟨hpub, hnew, so, pf, host, hok, ha⟩
  · cases he

/-- C6 witness: the theorem instantiated on the environment whose delta
application fails, for the public new account, with the error hypothesis
discharged by evaluation. -/
theorem claim_C6_delta_apply_error_only_public_new_witness :
    (testWitnessOf testAccountPubNew).txInputs.account.isPublic = true ∧
    (testWitnessOf testAccountPubNew).txInputs.account.isNew = true ∧
    ∃ so pf host,
      proveEngineResult testEnvDeltaFail testProver (testWitnessOf testAccountPubNew) =
        .ok (so, pf, host) ∧
      testEnvDeltaFail.applyDelta (testWitnessOf testAccountPubNew).txInputs.account
        host.accountDelta = .error 7 :=
  claim_C6_delta_apply_error_only_public_new testEnvDeltaFail testProver
    (testWitnessOf testAccountPubNew) 7 rfl


-- CLAIM C2
-- ================================================================================================

/-- C2: fail-closed error propagation: a run of `prove` returns an error
exactly when its first failing stage does — host creation, program
execution/proving, output construction, delta application or the final
build — and the returned value is precisely that stage's tagged error;
moreover, on any failure path no proven transaction is returned. -/
theorem claim_C2_fail_closed (env : ProverEnv) (self : LocalTransactionProver)
    (w : TransactionWitness) (e : TransactionProverError) :
    (LocalTransactionProver.prove env self w = .error e ↔
      ((∃ e0, e = .TransactionHostCreationFailed e0 ∧ proveHostInit env self w = .error e0) ∨
       (∃ e0 host, e = .TransactionProgramExecutionFailed e0 ∧
         proveHostInit env self w = .ok host ∧
         env.proveEngine env.kernelMain (provePrepared env w).1 host self.proofOptions =
           .error e0) ∨
       (∃ e0 so pf host, e = .TransactionOutputConstructionFailed e0 ∧
         proveEngineResult env self w = .ok (so, pf, host) ∧
         env.txOutputsOf so host.adviceProvider.adviceMap host.outputNotes = .error e0) ∨
       (∃ e0 so pf host txOutputs, e = .AccountDeltaApplyFailed e0 ∧
         proveEngineResult env self w = .ok (so, pf, host) ∧
         env.txOutputsOf so host.adviceProvider.adviceMap host.outputNotes = .ok txOutputs ∧
         w.txInputs.account.isPublic = true ∧ w.txInputs.account.isNew = true ∧
         env.applyDelta w.txInputs.account host.accountDelta = .error e0) ∨
       (∃ e0 so pf host txOutputs b, e = .ProvenTransactionBuildFailed e0 ∧
         proveEngineResult env self w = .ok (so, pf, host) ∧
         env.txOutputsOf so host.adviceProvider.adviceMap host.outputNotes = .ok txOutputs ∧
         proveFinalBuilder env w pf host txOutputs = .ok b ∧
         env.buildCheck b = some e0))) ∧
    (∀ tx : ProvenTransaction, LocalTransactionProver.prove env self w = .error e →
      LocalTransactionProver.prove env self w ≠ .ok tx) := by
  refine ⟨prove_error_char env self w e, fun tx h1 h2 => ?_⟩
  rw [h1] at h2
  cases h2

/-- C2 witness: applying the fail-closed theorem on the environment whose
host-creation stage fails yields the concrete tagged error. -/
theorem claim_C2_fail_closed_witness :
    LocalTransactionProver.prove testEnvHostFail testProver (testWitnessOf testAccountPubNew) =
      .error (.TransactionHostCreationFailed 3) :=
  (claim_C2_fail_closed testEnvHostFail testProver (testWitnessOf testAccountPubNew)
    (.TransactionHostCreationFailed 3)).1.mpr (Or.inl ⟨3, rfl, rfl⟩)

-- CLAIM C4
-- ================================================================================================

/-- C4: the privacy redaction applied by `prove` — the element-wise map of
`OutputNote.shrink` over the output-note list — preserves the count and the
order of the notes, sends each full note to its header-only form, and is a
no-op on a note already in header form (hence idempotent). -/
theorem claim_C4_redaction_pure_transform :
    (∀ notes : List OutputNote, (notes.map OutputNote.shrink).length = notes.length) ∧
    (∀ (notes : List OutputNote) (i : Nat),
      (notes.map OutputNote.shrink)[i]? = notes[i]?.map OutputNote.shrink) ∧
    (∀ (h : NoteHeader) (p : FullNotePayload), OutputNote.shrink (.full h p) = .header h) ∧
    (∀ h : NoteHeader, OutputNote.shrink (.header h) = .header h) ∧
    (∀ n : OutputNote, OutputNote.shrink (OutputNote.shrink n) = OutputNote.shrink n) := by
  refine ⟨fun notes => by simp, fun notes i => by simp [List.getElem?_map], fun h p => rfl,
    fun h => rfl, fun n => ?_⟩
  cases n <;> rfl

-- CLAIM C7
-- ================================================================================================

/-- The backend of a worker is invariant under any sequence of availability
updates. -/
theorem foldl_set_availability_backend (w : Worker) (ops : List Bool) :
    (ops.foldl Worker.set_availability w).backend = w.backend := by
  induction ops generalizing w with
  | nil => rfl
  | cons b ops ih => exact ih (w.set_availability b)

/-- C7: two worker records compare equal exactly when their backend addresses
are equal; the availability flag and the health-check client state play no
role, so a worker compares equal to itself after any sequence of
`set_availability` calls and after any change of client state. -/
theorem claim_C7_worker_eq_by_backend (w1 w2 : Worker) :
    (Worker.beq w1 w2 = true ↔ w1.backend = w2.backend) ∧
    (∀ ops : List Bool, Worker.beq w1 (ops.foldl Worker.set_availability w1) = true) ∧
    (∀ c : HealthClient, Worker.beq w1 { w1 with health_check_client := c } = true) := by
  refine ⟨?_, fun ops => ?_, fun c => ?_⟩
  · unfold Worker.beq
    exact beq_iff_eq
  · unfold Worker.beq
    rw [foldl_set_availability_backend]
    exact beq_self_eq_true w1.backend
  · unfold Worker.beq
    exact beq_self_eq_true w1.backend

-- CLAIM C8
-- ================================================================================================

/-- Inserting the same code tree twice into the MAST store is the same as
inserting it once. -/
theorem MastStore_insert_insert (s : MastStore) (f : MastForest) :
    (s.insert f).insert f = s.insert f := by
  unfold MastStore.insert
  by_cases h : s.entries.any (fun e => e.fst == f.commitment)
  · simp [h]
  · simp [h]

/-- C8: loading the same library twice into a prover leaves the code cache
functionally equivalent to loading it once: every commitment lookup returns
the same result. -/
theorem claim_C8_load_library_idempotent (p : LocalTransactionProver) (lib : Library)
    (c : Digest) :
    ((p.load_library lib).load_library lib).mastStore.get c =
      (p.load_library lib).mastStore.get c := by
  unfold LocalTransactionProver.load_library
  dsimp only
  rw [MastStore_insert_insert]

-- CLAIM C9
-- ================================================================================================

/-- C9: every worker successfully returned by `Worker.new` is initially
available, before any `set_availability` call. -/
theorem claim_C9_new_worker_available (b : Backend)
    (r : Except ProvingServiceError HealthClient) (w : Worker)
    (h : Worker.new b r = .ok w) : w.is_available = true := by
  unfold Worker.new at h
  cases r with
  | error e => cases h
  | ok c =>
    obtain h1 := (Except.ok.injEq _ _).mp h
    rw [← h1]

/-- C9 witness: the theorem instantiated on the concrete backend and a
successfully created client. -/
theorem claim_C9_new_worker_available_witness : testWorker.is_available = true :=
  claim_C9_new_worker_available testBackend (.ok testClient) testWorker rfl

-- CLAIM C10
-- ================================================================================================

/-- C10: `is_healthy` returns true exactly when the health-check call
completed successfully and reported the Serving status; any transport/RPC
error, and any non-Serving status, yields false. -/
theorem claim_C10_is_healthy_iff (w : Worker) (check : Except String HealthCheckResponse) :
    Worker.is_healthy w check = true ↔
      ∃ resp, check = .ok resp ∧ resp.status = ServingStatus.Serving := by
  cases check with
  | error e => simp [Worker.is_healthy]
  | ok resp => simp [Worker.is_healthy]


-- CLAIM C5
-- ================================================================================================

/-- A successful engine stage decomposes into a successful host creation and a
successful engine call on that host. -/
theorem proveEngineResult_ok_char (env : ProverEnv) (self : LocalTransactionProver)
    (w : TransactionWitness) (r : StackOutputs × Proof × TransactionHost) :
    proveEngineResult env self w = .ok r ↔
      ∃ h0, proveHostInit env self w = .ok h0 ∧
        env.proveEngine env.kernelMain (provePrepared env w).1 h0 self.proofOptions = .ok r := by
  unfold proveEngineResult
  cases hh : proveHostInit env self w with
  | error e => simp
  | ok h0 =>
    cases hg : env.proveEngine env.kernelMain (provePrepared env w).1 h0 self.proofOptions with
    | error e => simp [hg]
    | ok r1 => simp [hg, eq_comm]

/-- C5: structural determinism: for a fixed witness and fixed proving options,
two runs of `prove` under collaborator environments that agree everywhere
except possibly in the proof bytes returned by the engine produce proven
transactions with identical account identity, initial and final account-state
hashes, block reference, expiration block number, input-note references,
output-note headers and account-update metadata — only the proof bytes may
differ. -/
theorem claim_C5_structural_determinism (e1 e2 : ProverEnv)
    (self : LocalTransactionProver) (w : TransactionWitness) (tx1 tx2 : ProvenTransaction)
    (hPrep : e1.prepareInputs = e2.prepareInputs)
    (hLoad : e1.loadTransactionCode = e2.loadTransactionCode)
    (hMain : e1.kernelMain = e2.kernelMain)
    (hHost : e1.hostNew = e2.hostNew)
    (hFrom : e1.fromTransactionParts = e2.fromTransactionParts)
    (hApply : e1.applyDelta = e2.applyDelta)
    (hEng : ∀ prog si h opts,
      (e1.proveEngine prog si h opts).map (fun r => (r.1, r.2.2)) =
        (e2.proveEngine prog si h opts).map (fun r => (r.1, r.2.2)))
    (h1 : LocalTransactionProver.prove e1 self w = .ok tx1)
    (h2 : LocalTransactionProver.prove e2 self w = .ok tx2) :
    tx1.accountId = tx2.accountId ∧
    tx1.initAccountHash = tx2.initAccountHash ∧
    tx1.finalAccountHash = tx2.finalAccountHash ∧
    tx1.blockRef = tx2.blockRef ∧
    tx1.expirationBlockNum = tx2.expirationBlockNum ∧
    tx1.inputNotes = tx2.inputNotes ∧
    tx1.outputNotes = tx2.outputNotes ∧
    tx1.accountUpdateDetails = tx2.accountUpdateDetails := by
  obtain ⟨so1, pf1, host1, to1, her1, hto1, hass1⟩ := prove_ok_char e1 self w tx1 h1
  obtain ⟨so2, pf2, host2, to2, her2, hto2, hass2⟩ := prove_ok_char e2 self w tx2 h2
  have hhi : proveHostInit e1 self w = proveHostInit e2 self w := by
    unfold proveHostInit proveStore provePrepared
    rw [hHost, hPrep, hLoad]
  have hsi : (provePrepared e1 w).1 = (provePrepared e2 w).1 := by
    unfold provePrepared
    rw [hPrep]
  obtain ⟨h0, hh1, hg1⟩ := (proveEngineResult_ok_char e1 self w (so1, pf1, host1)).mp her1
  obtain ⟨h0b, hh2, hg2⟩ := (proveEngineResult_ok_char e2 self w (so2, pf2, host2)).mp her2
  rw [← hhi, hh1] at hh2
  obtain rfl := (Except.ok.injEq _ _).mp hh2
  have hengmap := hEng e1.kernelMain (provePrepared e1 w).1 h0 self.proofOptions
  rw [hg1, hMain, hsi, hg2] at hengmap
  simp only [Except.map, Except.ok.injEq, Prod.mk.injEq] at hengmap
  obtain ⟨hso, hhost⟩ := hengmap
  have htoeq : (⟨to1.accountHash, to1.expirationBlockNum, to1.outputNotes⟩ :
      TransactionOutputs) = ⟨to2.accountHash, to2.expirationBlockNum, to2.outputNotes⟩ := by
    have hx : e1.txOutputsOf so1 host1.adviceProvider.adviceMap host1.outputNotes =
        e2.txOutputsOf so2 host2.adviceProvider.adviceMap host2.outputNotes := by
      unfold ProverEnv.txOutputsOf
      rw [hFrom, hso, hhost]
    rw [hto1, hto2] at hx
    obtain rfl := (Except.ok.injEq _ _).mp hx
    rfl
  obtain ⟨hfh, hexp, hnotes⟩ : to1.accountHash = to2.accountHash ∧
      to1.expirationBlockNum = to2.expirationBlockNum ∧
      to1.outputNotes = to2.outputNotes := by
    have hq := congrArg TransactionOutputs.accountHash htoeq
    have hr := congrArg TransactionOutputs.expirationBlockNum htoeq
    have hs := congrArg TransactionOutputs.outputNotes htoeq
    exact ⟨hq, hr, hs⟩
  obtain ⟨hid1, hin1, hf1, hb1, he1x, hn1, ho1, -, hdisp1⟩ :=
    proveAssemble_ok e1 w pf1 host1 to1 tx1 hass1
  obtain ⟨hid2, hin2, hf2, hb2, he2x, hn2, ho2, -, hdisp2⟩ :=
    proveAssemble_ok e2 w pf2 host2 to2 tx2 hass2
  refine ⟨hid1.trans hid2.symm, hin1.trans hin2.symm, ?_, hb1.trans hb2.symm,
    ?_, hn1.trans hn2.symm, ?_, ?_⟩
  · rw [hf1, hf2, hfh]
  · rw [he1x, he2x, hexp]
  · rw [ho1, ho2, hnotes]
  · rcases hdisp1 with ⟨hpub1, hd1⟩ | ⟨hpub1, hnew1, hd1⟩ | ⟨hpub1, hnew1, a1, ha1, hd1⟩
    · rcases hdisp2 with ⟨hpub2, hd2⟩ | ⟨hpub2, hnew2, hd2⟩ | ⟨hpub2, hnew2, a2, ha2, hd2⟩
      · rw [hd1, hd2]
      · rw [hpub1] at hpub2; cases hpub2
      · rw [hpub1] at hpub2; cases hpub2
    · rcases hdisp2 with ⟨hpub2, hd2⟩ | ⟨hpub2, hnew2, hd2⟩ | ⟨hpub2, hnew2, a2, ha2, hd2⟩
      · rw [hpub2] at hpub1; cases hpub1
      · rw [hd1, hd2, hhost]
      · rw [hnew1] at hnew2; cases hnew2
    · rcases hdisp2 with ⟨hpub2, hd2⟩ | ⟨hpub2, hnew2, hd2⟩ | ⟨hpub2, hnew2, a2, ha2, hd2⟩
      · rw [hpub2] at hpub1; cases hpub1
      · rw [hnew2] at hnew1; cases hnew1
      · rw [hd1, hd2]
        rw [hApply, hhost] at ha1
        rw [ha1] at ha2
        obtain rfl := (Except.ok.injEq _ _).mp ha2
        rfl

/-- C5 witness: the determinism theorem instantiated on two concrete
environments differing only in the engine's proof bytes, with all hypotheses
discharged by evaluation; the two runs produce `testTxPubOld` and
`testTxPubOldB`, which differ only in the proof field. -/
theorem claim_C5_structural_determinism_witness :
    testTxPubOld.accountId = testTxPubOldB.accountId ∧
    testTxPubOld.initAccountHash = testTxPubOldB.initAccountHash ∧
    testTxPubOld.finalAccountHash = testTxPubOldB.finalAccountHash ∧
    testTxPubOld.blockRef = testTxPubOldB.blockRef ∧
    testTxPubOld.expirationBlockNum = testTxPubOldB.expirationBlockNum ∧
    testTxPubOld.inputNotes = testTxPubOldB.inputNotes ∧
    testTxPubOld.outputNotes = testTxPubOldB.outputNotes ∧
    testTxPubOld.accountUpdateDetails = testTxPubOldB.accountUpdateDetails :=
  claim_C5_structural_determinism testEnv testEnvProofB testProver
    (testWitnessOf testAccountPubOld) testTxPubOld testTxPubOldB
    rfl rfl rfl rfl rfl rfl (fun _ _ _ _ => rfl) rfl rfl


-- EXTRA WITNESSES
-- ================================================================================================

/-- C4 witness: redaction on a concrete one-element list preserves the count. -/
theorem claim_C4_redaction_pure_transform_witness :
    ([testFullNote].map OutputNote.shrink).length = [testFullNote].length :=
  claim_C4_redaction_pure_transform.1 [testFullNote]

/-- C7 witness: a concrete worker compares equal to itself. -/
theorem claim_C7_worker_eq_by_backend_witness :
    Worker.beq testWorker testWorker = true :=
  (claim_C7_worker_eq_by_backend testWorker testWorker).1.mpr rfl

/-- C8 witness: a concrete double load leaves a concrete lookup unchanged. -/
theorem claim_C8_load_library_idempotent_witness :
    ((testProver.load_library testLibrary).load_library testLibrary).mastStore.get 10 =
      (testProver.load_library testLibrary).mastStore.get 10 :=
  claim_C8_load_library_idempotent testProver testLibrary 10

/-- C10 witness: a successful Serving response is healthy on a concrete
worker. -/
theorem claim_C10_is_healthy_iff_witness :
    Worker.is_healthy testWorker (.ok { status := ServingStatus.Serving }) = true :=
  (claim_C10_is_healthy_iff testWorker (.ok { status := ServingStatus.Serving })).mpr
    ⟨{ status := ServingStatus.Serving }, rfl, rfl⟩

end MidenBase
